import Mathlib

/-!
Verification of the SmartBike hazard-scoring pipeline
(`src/smartbike_pi5_streamlit.py`, German RPi5 variant).

The per-frame hazard logic is embedded shallowly: Python floats are
modelled as `ℚ` (all constants in the source are decimal literals),
pixel coordinates as `ℤ`, fallible code as `Except`, and the session
state that a frame mutates as explicit values threaded through the
definitions.  Names follow the source's German identifiers, with umlauts
transliterated (ö→oe, ü→ue) since Lean identifiers cannot carry them.
-/

/-- The translation dictionary `DEUTSCHE_WOERTERBUCH` (source lines 65-90),
as a lookup function; `uebersetze_zu_deutsch` below applies `.get(text, text)`. -/
def DEUTSCHE_WOERTERBUCH : String → Option String
  | "person" => some "Fußgänger"
  | "pedestrian" => some "Fußgänger"
  | "people" => some "Personen"
  | "car" => some "Auto"
  | "vehicle" => some "Fahrzeug"
  | "cars" => some "Autos"
  | "bicycle" => some "Fahrrad"
  | "bike" => some "Fahrrad"
  | "cyclist" => some "Radfahrer"
  | "motorcycle" => some "Motorrad"
  | "motorbike" => some "Motorrad"
  | "rider" => some "Fahrer"
  | "bus" => some "Bus"
  | "coach" => some "Reisebus"
  | "minibus" => some "Minibus"
  | "truck" => some "LKW"
  | "lorry" => some "LKW"
  | "van" => some "Transporter"
  | "traffic light" => some "Ampel"
  | "traffic signal" => some "Verkehrssignal"
  | "stop sign" => some "Stoppschild"
  | "stop" => some "Stopp"
  | "train" => some "Zug"
  | "tram" => some "Straßenbahn"
  | "Left" => some "Links"
  | "Right" => some "Rechts"
  | "Center" => some "Mitte"
  | "Front" => some "Vorne"
  | "Back" => some "Hinten"
  | "Warning" => some "Warnung"
  | "Danger" => some "Gefahr"
  | "Alert" => some "Alarm"
  | "Caution" => some "Vorsicht"
  | "Attention" => some "Achtung"
  | "Fast" => some "Schnell"
  | "Quick" => some "Schnell"
  | "Rapid" => some "Rasend"
  | "Close" => some "Nah"
  | "Near" => some "In der Nähe"
  | "Approaching" => some "Nähert sich"
  | "Safe" => some "Sicher"
  | "Normal" => some "Normal"
  | "Clear" => some "Frei"
  | "Red" => some "Rot"
  | "Green" => some "Grün"
  | "Yellow" => some "Gelb"
  | _ => none

/-- `uebersetze_zu_deutsch` (source lines 92-94): dictionary lookup with the
input itself as default. -/
def uebersetze_zu_deutsch (englischer_text : String) : String :=
  (DEUTSCHE_WOERTERBUCH englischer_text).getD englischer_text

/-- `REALE_OBJEKT_GROESSEN` (source lines 493-500): fixed table of per-class
real-world widths in metres. -/
def REALE_OBJEKT_GROESSEN : String → Option ℚ
  | "person" => some (1/2)
  | "pedestrian" => some (1/2)
  | "car" => some (9/5)
  | "vehicle" => some (9/5)
  | "bicycle" => some (7/10)
  | "bike" => some (7/10)
  | "motorcycle" => some (4/5)
  | "motorbike" => some (4/5)
  | "bus" => some (5/2)
  | "truck" => some (5/2)
  | "traffic light" => some (3/10)
  | "stop sign" => some (2/5)
  | _ => none

/-- `WICHTIGE_OBJEKTE` (source lines 502-505): the class filter applied
before any hazard processing (`continue` for every other class). -/
def WICHTIGE_OBJEKTE : List String :=
  ["person", "bicycle", "car", "motorcycle",
   "bus", "truck", "traffic light", "stop sign"]

/-- Python's `round(x, 2)`, modelled on `ℚ` as rounding `100·x` to the
nearest integer (the source's values never hit a representable half-way
tie, so the float half-even tie rule is not distinguished here). -/
def runde2 (q : ℚ) : ℚ := ((round (q * 100) : ℤ) : ℚ) / 100

/-- `berechne_entfernung` (source lines 507-513).  The source divides by
`pixel_breite` directly — there is no clamping — so a zero width raises
`ZeroDivisionError`, modelled as `Except.error`; an absent class returns
`None` (here `Option.none`) before any division. -/
def berechne_entfernung (pixel_breite : ℚ) (objekt_typ : String) :
    Except String (Option ℚ) :=
  match REALE_OBJEKT_GROESSEN objekt_typ with
  | none => .ok none
  | some groesse =>
      if pixel_breite = 0 then .error "ZeroDivisionError"
      else .ok (some (runde2 (groesse * 600 / pixel_breite)))

/-- `DistanceEstimator` as the claim words it: distance is
`real_width · 600 / max 1 bbox_pixel_width`, never raising.  Stated for
comparison against the source's `berechne_entfernung`. -/
def berechne_entfernung_spec (pixel_breite : ℚ) (objekt_typ : String) :
    Option ℚ :=
  match REALE_OBJEKT_GROESSEN objekt_typ with
  | none => none
  | some groesse => some (runde2 (groesse * 600 / max 1 pixel_breite))

/-- Zone classification (source lines 663-668): the bbox centre `x` is
compared against `breite * 0.33` and `breite * 0.66` (the float constants
`0.33` and `0.66`; for integer frame widths the products round back to the
same values as the exact rationals `33/100` and `66/100`, which is how the
floats are modelled here). -/
def bestimme_position (mitte_x : ℤ) (breite : ℤ) : String :=
  if (mitte_x : ℚ) < (breite : ℚ) * (33/100) then "Left"
  else if (breite : ℚ) * (66/100) < (mitte_x : ℚ) then "Right"
  else "Center"

/-- Python's `f"{x:.1f}"` formatting, modelled on `ℚ`: round `10·x` to the
nearest integer and print it with one decimal digit (again, no claim
exercises a float half-way tie). -/
def fmt1 (q : ℚ) : String :=
  let n : ℤ := round (q * 10)
  (if n < 0 then "-" else "") ++ toString (n.natAbs / 10) ++ "." ++ toString (n.natAbs % 10)

/-- `erstelle_deutsche_warnung` (source lines 539-552).  The global slider
value `gefahr_abstand` becomes an explicit parameter. -/
def erstelle_deutsche_warnung (objekt_name position : String) (entfernung : ℚ)
    (schnell : Bool) (gefahr_abstand : ℚ) : String :=
  let objekt_deutsch := uebersetze_zu_deutsch objekt_name
  let position_deutsch := uebersetze_zu_deutsch position
  if entfernung < gefahr_abstand then
    if schnell then
      "⚠️ DRINGEND: " ++ objekt_deutsch ++ " nähert sich schnell von " ++
        position_deutsch ++ "! Nur " ++ fmt1 entfernung ++ " Meter entfernt!"
    else
      "⚠️ ACHTUNG: " ++ objekt_deutsch ++ " zu nah auf " ++ position_deutsch ++
        "! Abstand: " ++ fmt1 entfernung ++ " Meter"
  else if schnell then
    "⚠️ HINWEIS: Schneller " ++ objekt_deutsch ++ " von " ++ position_deutsch
  else ""

/-- The per-detection warning step of `verarbeite_kamerabild`
(source lines 698-720): compute the distance (line 699, which can only
raise for a zero bbox width), then branch — `traffic light` gets only the
red-light rule (lines 702-711); every other class gets
`erstelle_deutsche_warnung` when the distance is known, appending the
message and incrementing `warnungen_gesamt` iff it is non-empty
(lines 713-720).  Result: (messages appended this detection,
`rote_ampel_gefunden` contribution, increment to `warnungen_gesamt`).
`rote_ampel_erkannt` is the value of `erkenne_rote_ampel` on the bbox crop,
and `geschwindigkeit_warnung` the speed-threshold flag of lines 681-696. -/
def verarbeite_detektion (klassen_name position : String) (box_breite : ℚ)
    (rote_ampel_erkannt geschwindigkeit_warnung : Bool) (gefahr_abstand : ℚ) :
    Except String (List String × Bool × ℕ) :=
  match berechne_entfernung box_breite klassen_name with
  | .error e => .error e
  | .ok entfernung =>
    if klassen_name = "traffic light" then
      if rote_ampel_erkannt then .ok (["🚦 ROTE AMPEL - BITTE ANHALTEN!"], true, 0)
      else .ok ([], false, 0)
    else
      match entfernung with
      | some e =>
          let warnung :=
            erstelle_deutsche_warnung klassen_name position e geschwindigkeit_warnung gefahr_abstand
          if warnung ≠ "" then .ok ([warnung], false, 1) else .ok ([], false, 0)
      | none => .ok ([], false, 0)

/-- Severity of a warning in the claim's vocabulary. -/
inductive Schweregrad
  | Info
  | Warnung
  | Gefahr
deriving DecidableEq, Repr

/-- A warning as the claim describes it: a severity, whether the text adds
the approaching-fast phrasing, and whether it is the red-light stop
message. -/
structure SpecWarnung where
  schwere : Schweregrad
  naehert_schnell : Bool
  ampel_stopp : Bool
deriving DecidableEq, Repr

/-- The hazard evaluator's decision policy exactly as the claim words it
(priority chain): red traffic light → Danger stop; else known distance
below threshold → Danger (approaching-fast phrasing iff also fast); else
fast → Warning; else nothing.  Stated for comparison against the source's
`verarbeite_detektion`. -/
def bewerte_gefahr_spec (ist_ampel_klasse rot_erkannt : Bool)
    (entfernung : Option ℚ) (schnell : Bool) (gefahr_abstand : ℚ) :
    Option SpecWarnung :=
  if ist_ampel_klasse ∧ rot_erkannt then some ⟨.Gefahr, false, true⟩
  else
    match entfernung with
    | some e =>
        if e < gefahr_abstand then some ⟨.Gefahr, schnell, false⟩
        else if schnell then some ⟨.Warnung, false, false⟩
        else none
    | none => if schnell then some ⟨.Warnung, false, false⟩ else none

/-- One entry of a track-history buffer (source lines 675-679): the dict
`{"zeit": time.time(), "mitte": mitte_punkt, "box": (x1, y1, x2, y2)}`. -/
structure VerlaufsProbe where
  zeit : ℚ
  mitte : ℤ × ℤ
  box : ℤ × ℤ × ℤ × ℤ
deriving DecidableEq, Repr

/-- `deque(maxlen := C).append` semantics: append on the right and, once the
length passes `C`, drop from the left down to `C`.  Used with `C = 10` by
the source (line 673). -/
def haenge_mit_kapazitaet (C : ℕ) (puffer : List VerlaufsProbe)
    (eintrag : VerlaufsProbe) : List VerlaufsProbe :=
  if C < (puffer ++ [eintrag]).length then
    (puffer ++ [eintrag]).drop ((puffer ++ [eintrag]).length - C)
  else puffer ++ [eintrag]

/-- The session's `objekt_verläufe` map, keyed by the string
`f"{klassen_name}_{position}"` (source line 671); a missing key denotes the
empty buffer that line 673 would create. -/
def ObjektVerlaeufe := String → List VerlaufsProbe

/-- The track-history update of source lines 671-679: create the buffer for
the key if absent and append the new sample into the capacity-10 deque. -/
def aktualisiere_verlauf (verlaeufe : ObjektVerlaeufe) (schluessel : String)
    (eintrag : VerlaufsProbe) : ObjektVerlaeufe :=
  fun k =>
    if k = schluessel then haenge_mit_kapazitaet 10 (verlaeufe schluessel) eintrag
    else verlaeufe k

/-- The empty `objekt_verläufe` session state (source line 101). -/
def leere_verlaeufe : ObjektVerlaeufe := fun _ => []

/-- The squared pixel displacement between two bbox centres, the quantity
under the `np.sqrt` of source lines 691-694. -/
def quadrat_distanz (a b : ℤ × ℤ) : ℚ :=
  (((b.1 - a.1) ^ 2 + (b.2 - a.2) ^ 2 : ℤ) : ℚ)

/-- The speed the source computes at lines 681-696: defined (as a real
number) exactly when the buffer has at least two samples and the newest
sample (`verlauf[-1]`) is strictly later than the oldest retained one
(`verlauf[0]`); its value is then `sqrt(Δx² + Δy²) / Δt`.  When `Δt ≤ 0`
the source computes no speed at all (the flag stays `False`). -/
def geschwindigkeit_ist (verlauf : List VerlaufsProbe) (v : ℝ) : Prop :=
  2 ≤ verlauf.length ∧
  ∃ erster letzter, verlauf.head? = some erster ∧ verlauf.getLast? = some letzter ∧
    0 < letzter.zeit - erster.zeit ∧
    v = Real.sqrt (quadrat_distanz erster.mitte letzter.mitte) /
          ((letzter.zeit - erster.zeit : ℚ) : ℝ)

/-- The boolean flag `geschwindigkeit_warnung` of source lines 681-696,
made executable: for `Δt > 0` and a non-negative threshold,
`sqrt(d²)/Δt > grenze` is equivalent to `(grenze·Δt)² < d²`, which avoids
the irrational square root (a negative threshold is always exceeded);
`geschwindigkeit_warnung_entspricht` below proves this equivalence against
the `Real.sqrt` form the source computes. -/
def geschwindigkeit_warnung_von (verlauf : List VerlaufsProbe) (grenze : ℚ) : Bool :=
  match verlauf.head?, verlauf.getLast? with
  | some erster, some letzter =>
      decide (2 ≤ verlauf.length) && decide (0 < letzter.zeit - erster.zeit) &&
        (decide (grenze < 0) ||
         decide ((grenze * (letzter.zeit - erster.zeit)) ^ 2 <
           quadrat_distanz erster.mitte letzter.mitte))
  | _, _ => false

/-- The voice-debouncer state: `st.session_state.letzte_sprach_warnung`
(source line 104). -/
structure SprachZustand where
  letzte_sprach_warnung : ℚ
deriving DecidableEq, Repr

/-- The debounced voice output of source lines 799-810: when audio is on,
some message is pending and more than 2.0 s passed since the last accepted
call, speak the fixed red-light sentence if a red light was found, else
the first pending message with the `"⚠️ "` marker stripped, and set the
last-spoken timestamp to `jetzt`; otherwise speak nothing and keep the
state.  (The source stamps with a second `time.time()` call a few
microseconds after the one it compares with; both are modelled as the one
instant `jetzt`.) -/
def biete_sprach_warnung_an (audio_aktiv : Bool) (warnungs_meldungen : List String)
    (rote_ampel_gefunden : Bool) (jetzt : ℚ) (zustand : SprachZustand) :
    Option String × SprachZustand :=
  if audio_aktiv = true ∧ warnungs_meldungen ≠ [] ∧
      2 < jetzt - zustand.letzte_sprach_warnung then
    let zu_sprechen :=
      if rote_ampel_gefunden then "Achtung, rote Ampel! Bitte anhalten."
      else (warnungs_meldungen.headD "").replace "⚠️ " ""
    (some zu_sprechen, ⟨jetzt⟩)
  else (none, zustand)

/-- A hazard point as the source appends it (lines 818-824): the dict has
the five keys `lat`, `lng`, `label`, `ts` and `details` (the first two
frame warnings). -/
structure GefahrenPunkt where
  lat : ℚ
  lng : ℚ
  label : String
  ts : ℚ
  details : List String
deriving DecidableEq, Repr

/-- The keys of the hazard-point dict, in the order the source literal at
lines 818-824 writes them (this is also what `json.dumps` serializes for
the map). -/
def gefahren_punkt_schluessel : List String :=
  ["lat", "lng", "label", "ts", "details"]

/-- Construction of the hazard point appended at source lines 816-824. -/
def erzeuge_gefahren_punkt (latitude longitude : ℚ) (rote_ampel_gefunden : Bool)
    (warnungs_meldungen : List String) (jetzt : ℚ) : GefahrenPunkt :=
  { lat := latitude
    lng := longitude
    label := if rote_ampel_gefunden then "Rote Ampel" else "Gefahrenzone"
    ts := jetzt
    details := warnungs_meldungen.take 2 }

/-- The hazard-log record step of source lines 818-828: append, then trim
to the last `kapazitaet` entries once the length passes the cap (`100` in
the source, kept as a parameter to state the spec's cap-3 test). -/
def speichere_gefahren_punkt (kapazitaet : ℕ) (punkte : List GefahrenPunkt)
    (punkt : GefahrenPunkt) : List GefahrenPunkt :=
  if kapazitaet < (punkte ++ [punkt]).length then
    (punkte ++ [punkt]).drop ((punkte ++ [punkt]).length - kapazitaet)
  else punkte ++ [punkt]

/-- An HSV pixel as OpenCV represents it (hue on the 0-180 scale). -/
structure HSVPixel where
  h : ℕ
  s : ℕ
  v : ℕ
deriving DecidableEq, Repr

/-- `cv2.inRange` on one pixel: channel-wise closed bounds. -/
def in_bereich (lo hi p : HSVPixel) : Bool :=
  decide (lo.h ≤ p.h) && decide (p.h ≤ hi.h) &&
  decide (lo.s ≤ p.s) && decide (p.s ≤ hi.s) &&
  decide (lo.v ≤ p.v) && decide (p.v ≤ hi.v)

/-- The red mask of source lines 524-532: the union of the two red hue
bands `[0,10]` and `[160,180]`, each with saturation and value at least
100. -/
def rote_maske (p : HSVPixel) : Bool :=
  in_bereich ⟨0, 100, 100⟩ ⟨10, 255, 255⟩ p ||
  in_bereich ⟨160, 100, 100⟩ ⟨180, 255, 255⟩ p

/-- Number of pixels of a `zeilen × spalten` crop that fall in the red
mask (the `np.sum(rote_maske > 0)` of line 535). -/
def rote_pixel_anzahl (zeilen spalten : ℕ) (pix : ℕ → ℕ → HSVPixel) : ℕ :=
  ((List.range zeilen).map
    (fun i => ((List.range spalten).filter (fun j => rote_maske (pix i j))).length)).sum

/-- `erkenne_rote_ampel` (source lines 515-537), with the crop given
directly in OpenCV HSV coordinates (`cv2.cvtColor` is the external
conversion; pure red BGR `(0,0,255)` maps to HSV `(0,255,255)`, pure green
to `(60,255,255)`).  A 3-channel crop has `size == 0` exactly when
`zeilen * spalten = 0`, and then the function returns `False` before the
division by `shape[0] * shape[1]`. -/
def erkenne_rote_ampel (zeilen spalten : ℕ) (pix : ℕ → ℕ → HSVPixel) : Bool :=
  if zeilen * spalten = 0 then false
  else decide ((8 : ℚ) / 100 <
    (rote_pixel_anzahl zeilen spalten pix : ℚ) / ((zeilen * spalten : ℕ) : ℚ))

/-! ## Helper lemmas -/

/-- Appending anything to a non-empty string stays non-empty. -/
lemma append_ne_leer (s t : String) (h : s ≠ "") : s ++ t ≠ "" := by
  intro hc
  apply h
  have hl : (s ++ t).length = 0 := by rw [hc]; rfl
  rw [String.length_append] at hl
  obtain ⟨daten⟩ := s
  cases daten with
  | nil => rfl
  | cons c cs =>
      have hx : (String.mk (c :: cs)).length = cs.length + 1 := rfl
      rw [hx] at hl
      omega

/-- Every class the detection loop keeps has an entry in the real-width
table. -/
lemma wichtig_hat_groesse (k : String) (hk : k ∈ WICHTIGE_OBJEKTE) :
    ∃ gr, REALE_OBJEKT_GROESSEN k = some gr := by
  simp only [WICHTIGE_OBJEKTE, List.mem_cons, List.not_mem_nil, or_false] at hk
  rcases hk with rfl | rfl | rfl | rfl | rfl | rfl | rfl | rfl <;> exact ⟨_, rfl⟩

/-! ## C2 — zone classifier -/

/-- **C2**, counterexample: the claim places the Left/Center boundary at
`w/3`, but the source compares against `0.33·w`; at `w = 100`, `x = 33` we
have `x < w/3`, yet the code classifies `Center`, not `Left`. -/
theorem C2_zonen_gegenbeispiel :
    ((33 : ℚ) < (100 : ℚ) / 3) ∧ bestimme_position 33 100 = "Center" := by
  constructor
  · norm_num
  · norm_num [bestimme_position]

/-- **C2**, amended: for every frame width `w > 0` and bbox centre `x`,
the classifier returns one of exactly the three values Left/Center/Right,
with Left iff `x < 0.33·w` and Right iff `x > 0.66·w` (boundaries at
`0.33·w` and `0.66·w`, not at `w/3` and `2w/3`); it is a pure total
function partitioning the axis into three contiguous zones. -/
theorem C2_zonen_abgeaendert (x w : ℤ) (hw : 0 < w) :
    (bestimme_position x w = "Left" ∨ bestimme_position x w = "Center" ∨
      bestimme_position x w = "Right") ∧
    (bestimme_position x w = "Left" ↔ (x : ℚ) < (w : ℚ) * (33/100)) ∧
    (bestimme_position x w = "Right" ↔ (w : ℚ) * (66/100) < (x : ℚ)) ∧
    (bestimme_position x w = "Center" ↔
      ((w : ℚ) * (33/100) ≤ (x : ℚ) ∧ (x : ℚ) ≤ (w : ℚ) * (66/100))) := by
  have hw' : (0 : ℚ) < (w : ℚ) := by exact_mod_cast hw
  have hmono : (w : ℚ) * (33/100) ≤ (w : ℚ) * (66/100) := by nlinarith
  by_cases h1 : (x : ℚ) < (w : ℚ) * (33/100)
  · have e : bestimme_position x w = "Left" := by
      simp [bestimme_position, h1]
    rw [e]
    refine ⟨Or.inl rfl, ⟨fun _ => h1, fun _ => rfl⟩, ?_, ?_⟩
    · exact ⟨fun h => absurd h (by decide),
        fun h2 => absurd h2 (not_lt.mpr (le_of_lt (lt_of_lt_of_le h1 hmono)))⟩
    · exact ⟨fun h => absurd h (by decide), fun h2 => absurd h1 (not_lt.mpr h2.1)⟩
  · by_cases h2 : (w : ℚ) * (66/100) < (x : ℚ)
    · have e : bestimme_position x w = "Right" := by
        simp [bestimme_position, h1, h2]
      rw [e]
      refine ⟨Or.inr (Or.inr rfl), ?_, ⟨fun _ => h2, fun _ => rfl⟩, ?_⟩
      · exact ⟨fun h => absurd h (by decide), fun hl => absurd hl h1⟩
      · exact ⟨fun h => absurd h (by decide), fun hc => absurd h2 (not_lt.mpr hc.2)⟩
    · have e : bestimme_position x w = "Center" := by
        simp [bestimme_position, h1, h2]
      rw [e]
      refine ⟨Or.inr (Or.inl rfl), ?_, ?_, ?_⟩
      · exact ⟨fun h => absurd h (by decide), fun hl => absurd hl h1⟩
      · exact ⟨fun h => absurd h (by decide), fun hr => absurd hr h2⟩
      · exact ⟨fun _ => ⟨not_lt.mp h1, not_lt.mp h2⟩, fun _ => rfl⟩

/-- **C2** witness: the amended theorem applied at `x = 10`, `w = 100`. -/
theorem C2_zonen_abgeaendert_zeuge : bestimme_position 10 100 = "Left" :=
  (C2_zonen_abgeaendert 10 100 (by decide)).2.1.mpr (by norm_num)

/-! ## C3 — distance estimator -/

/-- **C3**, counterexample: the claim's formula divides by
`max 1 bbox_pixel_width` and never raises, but the source divides by the
raw width — a `"car"` at width `0` raises `ZeroDivisionError` (the claim
would give `1080`), and width `-2` yields `-540` instead of the claim's
`1080`. -/
theorem C3_entfernung_gegenbeispiel :
    berechne_entfernung 0 "car" = .error "ZeroDivisionError" ∧
    berechne_entfernung (-2) "car" = .ok (some (-540)) ∧
    berechne_entfernung_spec 0 "car" = some 1080 ∧
    berechne_entfernung_spec (-2) "car" = some 1080 := by
  refine ⟨?_, ?_, ?_, ?_⟩ <;>
    norm_num [berechne_entfernung, berechne_entfernung_spec,
      REALE_OBJEKT_GROESSEN, runde2, round_eq]

/-- Every real-width table entry is positive. -/
lemma groesse_positiv (k : String) (gr : ℚ)
    (h : REALE_OBJEKT_GROESSEN k = some gr) : 0 < gr := by
  unfold REALE_OBJEKT_GROESSEN at h
  split at h <;>
    first
      | exact Option.noConfusion h
      | (injection h with h2; subst h2; norm_num)

/-- **C3**, amended: for every class and *every* bbox width, the estimator
returns `unknown` exactly when the class has no entry in the real-width
table — the table check happens before any division, so unknown classes
never raise even at width 0; for a known class and any nonzero width it
returns `round(real_width·600/width, 2)` — there is no `max(1, ·)` clamp,
so width 0 raises `ZeroDivisionError` and negative widths give negative
distances (the quotient is negative, hence the rounded result nonpositive);
`estimate("car", 300)` returns `3.6 = 18/5`, `estimate("unicorn", 100)`
returns unknown. -/
theorem C3_entfernung_abgeaendert (objekt_typ : String) (w : ℚ) :
    (REALE_OBJEKT_GROESSEN objekt_typ = none →
      berechne_entfernung w objekt_typ = .ok none) ∧
    (∀ gr : ℚ, REALE_OBJEKT_GROESSEN objekt_typ = some gr → w ≠ 0 →
      berechne_entfernung w objekt_typ = .ok (some (runde2 (gr * 600 / w)))) ∧
    (∀ gr : ℚ, REALE_OBJEKT_GROESSEN objekt_typ = some gr →
      berechne_entfernung 0 objekt_typ = .error "ZeroDivisionError") ∧
    (∀ gr : ℚ, REALE_OBJEKT_GROESSEN objekt_typ = some gr → w < 0 →
      gr * 600 / w < 0 ∧ runde2 (gr * 600 / w) ≤ 0) ∧
    (berechne_entfernung w objekt_typ = .ok none ↔
      REALE_OBJEKT_GROESSEN objekt_typ = none) ∧
    berechne_entfernung 300 "car" = .ok (some (18/5)) ∧
    berechne_entfernung 100 "unicorn" = .ok none := by
  refine ⟨?_, ?_, ?_, ?_, ?_, ?_, rfl⟩
  · intro hR
    simp [berechne_entfernung, hR]
  · intro gr hR hw0
    simp [berechne_entfernung, hR, hw0]
  · intro gr hR
    simp [berechne_entfernung, hR]
  · intro gr hR hw
    have hg : 0 < gr := groesse_positiv objekt_typ gr hR
    have hq : gr * 600 / w < 0 :=
      div_neg_of_pos_of_neg (by positivity) hw
    refine ⟨hq, ?_⟩
    unfold runde2
    rw [round_eq]
    have hle : gr * 600 / w * 100 + 1 / 2 ≤ 1 / 2 := by nlinarith
    have hfl : ⌊gr * 600 / w * 100 + 1 / 2⌋ ≤ ⌊(1 / 2 : ℚ)⌋ :=
      Int.floor_le_floor hle
    have hhalb : ⌊(1 / 2 : ℚ)⌋ = 0 := by norm_num
    rw [hhalb] at hfl
    have hcast : ((⌊gr * 600 / w * 100 + 1 / 2⌋ : ℤ) : ℚ) ≤ 0 := by
      exact_mod_cast hfl
    linarith [hcast]
  · cases hR : REALE_OBJEKT_GROESSEN objekt_typ with
    | none => simp [berechne_entfernung, hR]
    | some gr =>
        by_cases hw0 : w = 0
        · subst hw0
          simp [berechne_entfernung, hR]
        · simp [berechne_entfernung, hR, hw0]
  · norm_num [berechne_entfernung, REALE_OBJEKT_GROESSEN, runde2, round_eq]

/-- **C3** witness: the amended theorem applied at `"car"` with the
negative width −2 (formula case) and with width 0 (raise case). -/
theorem C3_entfernung_abgeaendert_zeuge :
    berechne_entfernung (-2) "car" = .ok (some (runde2 ((9/5) * 600 / (-2)))) ∧
    berechne_entfernung 0 "car" = .error "ZeroDivisionError" :=
  ⟨(C3_entfernung_abgeaendert "car" (-2)).2.1 (9/5) rfl (by norm_num),
   (C3_entfernung_abgeaendert "car" 0).2.2.1 (9/5) rfl⟩

/-! ## C9 — hazard-point wire format -/

/-- **C9**, counterexample: the appended hazard record does not have
exactly the four fields `{lat, lng, label, ts}` — the source dict carries a
fifth key `details` (the first two frame warnings). -/
theorem C9_wireformat_gegenbeispiel :
    gefahren_punkt_schluessel ≠ ["lat", "lng", "label", "ts"] ∧
    "details" ∈ gefahren_punkt_schluessel := by
  constructor
  · decide
  · decide

/-- **C9**, amended: every record appended to the hazard log has exactly
the five fields `{lat: float, lng: float, label: string, ts: float,
details: list of at most two warning strings}` — the four claimed fields
plus `details`; `lat`, `lng` and `ts` are passed through unchanged and
`label` is the red-light label exactly for red-light frames. -/
theorem C9_wireformat_abgeaendert (la lo : ℚ) (rot : Bool) (ms : List String)
    (t : ℚ) :
    gefahren_punkt_schluessel = ["lat", "lng", "label", "ts", "details"] ∧
    erzeuge_gefahren_punkt la lo rot ms t =
      { lat := la, lng := lo,
        label := if rot then "Rote Ampel" else "Gefahrenzone",
        ts := t, details := ms.take 2 } ∧
    (erzeuge_gefahren_punkt la lo rot ms t).details.length ≤ 2 := by
  refine ⟨rfl, rfl, ?_⟩
  simp only [erzeuge_gefahren_punkt, List.length_take]
  omega

/-! ## C8 — red-light heuristic -/

/-- **C8**, confirmed: the heuristic fires exactly when the red-mask pixel
ratio exceeds `0.08` on a non-empty crop; a crop that is 100% pure red in
the lower hue band (HSV `(0,255,255)`) fires, an all-green crop
(HSV `(60,255,255)`) does not, and a zero-size crop returns false without
error. -/
theorem C8_rote_ampel_bestaetigt :
    (∀ (zeilen spalten : ℕ) (pix : ℕ → ℕ → HSVPixel),
      erkenne_rote_ampel zeilen spalten pix = true ↔
        (zeilen * spalten ≠ 0 ∧
         (8 : ℚ) / 100 <
           (rote_pixel_anzahl zeilen spalten pix : ℚ) / ((zeilen * spalten : ℕ) : ℚ))) ∧
    erkenne_rote_ampel 2 2 (fun _ _ => ⟨0, 255, 255⟩) = true ∧
    erkenne_rote_ampel 2 2 (fun _ _ => ⟨60, 255, 255⟩) = false ∧
    erkenne_rote_ampel 0 5 (fun _ _ => ⟨0, 255, 255⟩) = false := by
  refine ⟨?_, ?_, ?_, ?_⟩
  · intro zeilen spalten pix
    by_cases h : zeilen * spalten = 0
    · simp [erkenne_rote_ampel, h]
    · simp [erkenne_rote_ampel, h]
  · norm_num [erkenne_rote_ampel, rote_pixel_anzahl, List.range_succ,
      rote_maske, in_bereich]
  · norm_num [erkenne_rote_ampel, rote_pixel_anzahl, List.range_succ,
      rote_maske, in_bereich]
  · norm_num [erkenne_rote_ampel]

/-! ## C7 — hazard log -/

/-- The record step never leaves the log longer than the cap. -/
lemma speichere_gefahren_punkt_laenge (kapazitaet : ℕ)
    (punkte : List GefahrenPunkt) (punkt : GefahrenPunkt) :
    (speichere_gefahren_punkt kapazitaet punkte punkt).length ≤ kapazitaet := by
  unfold speichere_gefahren_punkt
  by_cases h : kapazitaet < (punkte ++ [punkt]).length
  · rw [if_pos h, List.length_drop]
    omega
  · rw [if_neg h]
    simp only [List.length_append, List.length_cons, List.length_nil] at h ⊢
    omega

/-- **C7**, confirmed: for every sequence of record operations the log's
length never exceeds the cap; a record on a full log drops exactly the
front (oldest) entry; every record result is a suffix of `log ++ [p]`
(insertion order preserved); and with cap 3, recording A, B, C, D from an
empty log yields `[B, C, D]`. -/
theorem C7_gefahrenlog_bestaetigt (kapazitaet : ℕ)
    (punkte : List GefahrenPunkt) (punkt : GefahrenPunkt)
    (ops : List GefahrenPunkt)
    (A B C D : GefahrenPunkt) :
    ((ops.foldl (speichere_gefahren_punkt kapazitaet) []).length ≤ kapazitaet) ∧
    (0 < kapazitaet → punkte.length = kapazitaet →
      speichere_gefahren_punkt kapazitaet punkte punkt = punkte.tail ++ [punkt]) ∧
    (∃ n, speichere_gefahren_punkt kapazitaet punkte punkt =
      (punkte ++ [punkt]).drop n) ∧
    ([A, B, C, D].foldl (speichere_gefahren_punkt 3) [] = [B, C, D]) := by
  refine ⟨?_, ?_, ?_, ?_⟩
  · have schritt : ∀ (l : List GefahrenPunkt) (p : GefahrenPunkt),
        (speichere_gefahren_punkt kapazitaet l p).length ≤ kapazitaet :=
      speichere_gefahren_punkt_laenge kapazitaet
    cases ops with
    | nil => simp
    | cons kopf rest =>
        have allg : ∀ (rest' : List GefahrenPunkt) (acc : List GefahrenPunkt),
            acc.length ≤ kapazitaet →
            (rest'.foldl (speichere_gefahren_punkt kapazitaet) acc).length ≤ kapazitaet := by
          intro rest'
          induction rest' with
          | nil => intro acc h; simpa using h
          | cons q qs ih => intro acc _; exact ih _ (schritt acc q)
        exact allg rest _ (schritt [] kopf)
  · intro hpos hv
    unfold speichere_gefahren_punkt
    have hlen : kapazitaet < (punkte ++ [punkt]).length := by
      simp [List.length_append, hv]
    have hdl : (punkte ++ [punkt]).length - kapazitaet = 1 := by
      simp [List.length_append, hv]
    have hp1 : 1 ≤ punkte.length := by omega
    rw [if_pos hlen, hdl, List.drop_append_of_le_length hp1, List.drop_one]
  · unfold speichere_gefahren_punkt
    by_cases h : kapazitaet < (punkte ++ [punkt]).length
    · exact ⟨(punkte ++ [punkt]).length - kapazitaet, if_pos h⟩
    · exact ⟨0, by rw [if_neg h, List.drop_zero]⟩
  · simp [speichere_gefahren_punkt]

/-- **C7** witness: eviction at the front on a concrete full cap-2 log. -/
theorem C7_gefahrenlog_bestaetigt_zeuge :
    speichere_gefahren_punkt 2
      [⟨1, 2, "A", 3, []⟩, ⟨4, 5, "B", 6, []⟩] ⟨7, 8, "C", 9, []⟩ =
      [⟨4, 5, "B", 6, []⟩, ⟨7, 8, "C", 9, []⟩] := by
  have h := (C7_gefahrenlog_bestaetigt 2
    [⟨1, 2, "A", 3, []⟩, ⟨4, 5, "B", 6, []⟩] ⟨7, 8, "C", 9, []⟩ []
    ⟨1, 2, "A", 3, []⟩ ⟨1, 2, "A", 3, []⟩ ⟨1, 2, "A", 3, []⟩
    ⟨1, 2, "A", 3, []⟩).2.1 (by omega) (by simp)
  simpa using h

/-! ## C6 — track-history ring buffer -/

/-- The deque-append never leaves a buffer longer than its capacity. -/
lemma haenge_mit_kapazitaet_laenge (C : ℕ) (puffer : List VerlaufsProbe)
    (eintrag : VerlaufsProbe) :
    (haenge_mit_kapazitaet C puffer eintrag).length ≤ C := by
  unfold haenge_mit_kapazitaet
  by_cases h : C < (puffer ++ [eintrag]).length
  · rw [if_pos h, List.length_drop]
    omega
  · rw [if_neg h]
    simp only [List.length_append, List.length_cons, List.length_nil] at h ⊢
    omega

/-- **C6**, confirmed: for every finite sequence of track-history updates
starting from the empty session state, no key's buffer ever holds more
than the configured capacity 10 samples, and an update on a full buffer
evicts exactly the oldest sample. -/
theorem C6_verlaufs_kapazitaet_bestaetigt (ops : List (String × VerlaufsProbe))
    (k : String) (puffer : List VerlaufsProbe) (eintrag : VerlaufsProbe) :
    ((ops.foldl (fun v op => aktualisiere_verlauf v op.1 op.2) leere_verlaeufe) k).length
      ≤ 10 ∧
    (puffer.length = 10 →
      haenge_mit_kapazitaet 10 puffer eintrag = puffer.tail ++ [eintrag]) := by
  constructor
  · have schritt : ∀ (v : ObjektVerlaeufe) (s : String) (e : VerlaufsProbe) (k' : String),
        (v k').length ≤ 10 → ((aktualisiere_verlauf v s e) k').length ≤ 10 := by
      intro v s e k' hv
      unfold aktualisiere_verlauf
      by_cases hk : k' = s
      · rw [if_pos hk]
        exact haenge_mit_kapazitaet_laenge 10 (v s) e
      · rw [if_neg hk]
        exact hv
    have allg : ∀ (rest : List (String × VerlaufsProbe)) (v : ObjektVerlaeufe),
        (∀ k', (v k').length ≤ 10) →
        ∀ k', ((rest.foldl (fun v op => aktualisiere_verlauf v op.1 op.2) v) k').length ≤ 10 := by
      intro rest
      induction rest with
      | nil => intro v hv k'; exact hv k'
      | cons op rest' ih =>
          intro v hv k'
          exact ih _ (fun k'' => schritt v op.1 op.2 k'' (hv k'')) k'
    exact allg ops leere_verlaeufe (fun _ => by simp [leere_verlaeufe]) k
  · intro hv
    unfold haenge_mit_kapazitaet
    have hlen : 10 < (puffer ++ [eintrag]).length := by
      simp [List.length_append, hv]
    have hdl : (puffer ++ [eintrag]).length - 10 = 1 := by
      simp [List.length_append, hv]
    have hp1 : 1 ≤ puffer.length := by omega
    rw [if_pos hlen, hdl, List.drop_append_of_le_length hp1, List.drop_one]

/-- **C6** witness: a full capacity-10 buffer evicts its oldest sample. -/
theorem C6_verlaufs_kapazitaet_bestaetigt_zeuge :
    haenge_mit_kapazitaet 10 (List.replicate 10 ⟨0, (0, 0), (0, 0, 0, 0)⟩)
        ⟨1, (5, 6), (0, 0, 0, 0)⟩ =
      (List.replicate 10 (⟨0, (0, 0), (0, 0, 0, 0)⟩ : VerlaufsProbe)).tail ++
        [⟨1, (5, 6), (0, 0, 0, 0)⟩] :=
  (C6_verlaufs_kapazitaet_bestaetigt [] "person_Left"
    (List.replicate 10 ⟨0, (0, 0), (0, 0, 0, 0)⟩) ⟨1, (5, 6), (0, 0, 0, 0)⟩).2
    (by simp)

/-! ## C4 — voice-warning debouncer -/

/-- **C4**, counterexample: at `now − last_spoken = 2.0` exactly (not
`< cooldown`), the claim's "otherwise" branch promises a spoken message,
but the source's strict `> 2.0` comparison suppresses it and leaves the
timestamp unchanged. -/
theorem C4_entprellung_gegenbeispiel :
    ¬ ((2 : ℚ) - 0 < 2) ∧
    biete_sprach_warnung_an true
      ["⚠️ ACHTUNG: Auto zu nah auf Links! Abstand: 1.2 Meter"] false 2 ⟨0⟩ =
      (none, ⟨0⟩) := by
  constructor
  · norm_num
  · norm_num [biete_sprach_warnung_an]

/-- **C4**, amended: with audio on and a nonempty message list, the
debouncer suppresses everything while `now − last_spoken ≤ 2.0` (state
unchanged), and for `now − last_spoken > 2.0` returns exactly one message
— the fixed red-light sentence if a red light is pending, else the first
message in frame order with its `"⚠️ "` marker stripped — setting
`last_spoken := now`; consequently a second call within the next 2.0 s
window returns nothing. -/
theorem C4_entprellung_abgeaendert (meldungen : List String) (rot : Bool)
    (jetzt : ℚ) (zustand : SprachZustand) (hne : meldungen ≠ []) :
    (jetzt - zustand.letzte_sprach_warnung ≤ 2 →
      biete_sprach_warnung_an true meldungen rot jetzt zustand = (none, zustand)) ∧
    (2 < jetzt - zustand.letzte_sprach_warnung →
      biete_sprach_warnung_an true meldungen rot jetzt zustand =
        (some (if rot then "Achtung, rote Ampel! Bitte anhalten."
               else (meldungen.headD "").replace "⚠️ " ""), ⟨jetzt⟩)) ∧
    (∀ (meldungen' : List String) (rot' : Bool) (jetzt' : ℚ),
      jetzt' - jetzt ≤ 2 →
      (biete_sprach_warnung_an true meldungen' rot' jetzt' ⟨jetzt⟩).1 = none) := by
  refine ⟨?_, ?_, ?_⟩
  · intro hcool
    unfold biete_sprach_warnung_an
    rw [if_neg]
    intro hc
    exact absurd hc.2.2 (not_lt.mpr hcool)
  · intro hcool
    unfold biete_sprach_warnung_an
    rw [if_pos ⟨rfl, hne, hcool⟩]
  · intro meldungen' rot' jetzt' hcool
    unfold biete_sprach_warnung_an
    have hnc : ¬ (true = true ∧ meldungen' ≠ [] ∧
        2 < jetzt' - (⟨jetzt⟩ : SprachZustand).letzte_sprach_warnung) := by
      intro hc
      exact absurd hc.2.2 (not_lt.mpr hcool)
    rw [if_neg hnc]

/-- **C4** witness: the amended theorem applied with a red light pending at
`now = 3`, `last_spoken = 0`. -/
theorem C4_entprellung_abgeaendert_zeuge :
    biete_sprach_warnung_an true ["⚠️ HINWEIS: Schneller Auto von Links"] true 3 ⟨0⟩ =
      (some "Achtung, rote Ampel! Bitte anhalten.", ⟨3⟩) := by
  have h := (C4_entprellung_abgeaendert ["⚠️ HINWEIS: Schneller Auto von Links"]
    true 3 ⟨0⟩ (by decide)).2.1 (by norm_num)
  simpa using h

/-! ## C5 — speed estimate -/

/-- Squared displacements are non-negative. -/
lemma quadrat_distanz_nichtnegativ (a b : ℤ × ℤ) : 0 ≤ quadrat_distanz a b := by
  unfold quadrat_distanz
  have h : (0 : ℤ) ≤ (b.1 - a.1) ^ 2 + (b.2 - a.2) ^ 2 := by positivity
  exact_mod_cast h

/-- For a positive time difference, comparing the source's
`sqrt(d²)/Δt > grenze` is the same as the executable squared comparison
(with a negative threshold always exceeded). -/
lemma wurzel_vergleich (d2 dt grenze : ℚ) (hdt : 0 < dt) :
    (grenze < 0 ∨ (grenze * dt) ^ 2 < d2) ↔
      ((grenze : ℝ) < Real.sqrt ((d2 : ℚ) : ℝ) / ((dt : ℚ) : ℝ)) := by
  have hdtR : (0 : ℝ) < ((dt : ℚ) : ℝ) := by exact_mod_cast hdt
  rw [lt_div_iff₀ hdtR]
  constructor
  · rintro (hg | hsq)
    · have hgR : ((grenze : ℚ) : ℝ) < 0 := by exact_mod_cast hg
      exact lt_of_lt_of_le (mul_neg_of_neg_of_pos hgR hdtR) (Real.sqrt_nonneg _)
    · by_cases hgd : 0 ≤ ((grenze : ℚ) : ℝ) * ((dt : ℚ) : ℝ)
      · refine (Real.lt_sqrt hgd).mpr ?_
        exact_mod_cast hsq
      · exact lt_of_lt_of_le (not_le.mp hgd) (Real.sqrt_nonneg _)
  · intro h
    by_cases hg : grenze < 0
    · exact Or.inl hg
    · right
      have hg0 : (0 : ℝ) ≤ ((grenze : ℚ) : ℝ) := by
        exact_mod_cast not_lt.mp hg
      have hgd : (0 : ℝ) ≤ ((grenze : ℚ) : ℝ) * ((dt : ℚ) : ℝ) :=
        mul_nonneg hg0 hdtR.le
      have hsqR := (Real.lt_sqrt hgd).mp h
      have : (((grenze * dt) ^ 2 : ℚ) : ℝ) < ((d2 : ℚ) : ℝ) := by
        push_cast at hsqR ⊢
        exact hsqR
      exact_mod_cast this

/-- The executable speed-warning flag agrees with the source's
`sqrt(d²)/Δt > grenze` computed on the oldest retained and newest
samples. -/
lemma geschwindigkeit_warnung_entspricht (verlauf : List VerlaufsProbe)
    (grenze : ℚ) :
    geschwindigkeit_warnung_von verlauf grenze = true ↔
      ∃ v : ℝ, geschwindigkeit_ist verlauf v ∧ ((grenze : ℚ) : ℝ) < v := by
  cases h1 : verlauf.head? with
  | none =>
      simp [geschwindigkeit_warnung_von, geschwindigkeit_ist, h1]
  | some erster =>
      cases h2 : verlauf.getLast? with
      | none =>
          simp [geschwindigkeit_warnung_von, geschwindigkeit_ist, h1, h2]
      | some letzter =>
          simp only [geschwindigkeit_warnung_von, geschwindigkeit_ist, h1, h2,
            Bool.and_eq_true, Bool.or_eq_true, decide_eq_true_eq,
            Option.some.injEq]
          constructor
          · rintro ⟨⟨hlen, hdt⟩, hvgl⟩
            refine ⟨Real.sqrt ((quadrat_distanz erster.mitte letzter.mitte : ℚ) : ℝ) /
              ((letzter.zeit - erster.zeit : ℚ) : ℝ), ⟨hlen, erster, letzter, rfl, rfl, hdt, rfl⟩, ?_⟩
            exact (wurzel_vergleich _ _ _ hdt).mp hvgl
          · rintro ⟨v, ⟨hlen, e', l', he', hl', hdt', hv⟩, hgr⟩
            obtain rfl : e' = erster := by exact he'.symm
            obtain rfl : l' = letzter := by exact hl'.symm
            refine ⟨⟨hlen, hdt'⟩, ?_⟩
            refine (wurzel_vergleich _ _ _ hdt').mpr ?_
            rw [← hv]
            exact hgr

/-- **C5**, counterexample: with two samples taken at the same timestamp
(displacement (30,40)), the claim's formula `euclid / max(ε, Δt)` yields
the value `50/ε`, but the source computes no speed at all — there is no
`ε` division, the `Δt > 0` guard simply leaves the flag off. -/
theorem C5_geschwindigkeit_gegenbeispiel :
    (2 ≤ ([⟨0, (0, 0), (0, 0, 0, 0)⟩, ⟨0, (30, 40), (0, 0, 0, 0)⟩] :
      List VerlaufsProbe).length) ∧
    (¬ ∃ v : ℝ, geschwindigkeit_ist
      [⟨0, (0, 0), (0, 0, 0, 0)⟩, ⟨0, (30, 40), (0, 0, 0, 0)⟩] v) ∧
    geschwindigkeit_warnung_von
      [⟨0, (0, 0), (0, 0, 0, 0)⟩, ⟨0, (30, 40), (0, 0, 0, 0)⟩] 150 = false := by
  refine ⟨by decide, ?_, ?_⟩
  · rintro ⟨v, _, e', l', he', hl', hdt', _⟩
    obtain rfl : e' = (⟨0, (0, 0), (0, 0, 0, 0)⟩ : VerlaufsProbe) := by
      simpa using he'.symm
    obtain rfl : l' = (⟨0, (30, 40), (0, 0, 0, 0)⟩ : VerlaufsProbe) := by
      simpa using hl'.symm
    norm_num at hdt'
  · norm_num [geschwindigkeit_warnung_von]

/-- **C5**, amended: fewer than 2 samples yield the insufficient-history
result (no speed); with at least 2 samples a speed exists iff additionally
`newest.t − oldest.t > 0`, and it then equals
`euclid(newest.xy, oldest.xy) / (newest.t − oldest.t)` — there is no
`max(ε, ·)`: a zero (or negative) time difference produces no speed, and
nothing is raised; with the samples (t=0,(0,0)) and (t=1,(30,40)) the
speed is 50.0 px/s. -/
theorem C5_geschwindigkeit_abgeaendert (verlauf : List VerlaufsProbe)
    (erster letzter : VerlaufsProbe) :
    (verlauf.length < 2 → ∀ v : ℝ, ¬ geschwindigkeit_ist verlauf v) ∧
    (verlauf.head? = some erster → verlauf.getLast? = some letzter →
      ((letzter.zeit - erster.zeit ≤ 0 → ∀ v : ℝ, ¬ geschwindigkeit_ist verlauf v) ∧
       (2 ≤ verlauf.length → 0 < letzter.zeit - erster.zeit →
         ∀ v : ℝ, (geschwindigkeit_ist verlauf v ↔
           v = Real.sqrt ((quadrat_distanz erster.mitte letzter.mitte : ℚ) : ℝ) /
             ((letzter.zeit - erster.zeit : ℚ) : ℝ))))) ∧
    geschwindigkeit_ist [⟨0, (0, 0), (0, 0, 0, 0)⟩, ⟨1, (30, 40), (0, 0, 0, 0)⟩] 50 := by
  refine ⟨?_, ?_, ?_⟩
  · intro hlt v hg
    exact absurd hg.1 (by omega)
  · intro he hl
    constructor
    · rintro hle v ⟨_, e', l', he', hl', hdt', _⟩
      rw [he] at he'
      rw [hl] at hl'
      obtain rfl : e' = erster := by simpa using he'.symm
      obtain rfl : l' = letzter := by simpa using hl'.symm
      exact absurd hdt' (not_lt.mpr hle)
    · intro hlen hdt v
      constructor
      · rintro ⟨_, e', l', he', hl', hdt', hv⟩
        rw [he] at he'
        rw [hl] at hl'
        obtain rfl : e' = erster := by simpa using he'.symm
        obtain rfl : l' = letzter := by simpa using hl'.symm
        exact hv
      · intro hv
        exact ⟨hlen, erster, letzter, he, hl, hdt, hv⟩
  · refine ⟨by decide, ⟨0, (0, 0), (0, 0, 0, 0)⟩, ⟨1, (30, 40), (0, 0, 0, 0)⟩,
      rfl, rfl, by norm_num, ?_⟩
    have hq : quadrat_distanz (0, 0) (30, 40) = 2500 := by
      norm_num [quadrat_distanz]
    rw [hq]
    have h1 : (((1 : ℚ) - 0 : ℚ) : ℝ) = 1 := by norm_num
    have h2 : (((2500 : ℚ)) : ℝ) = (50 : ℝ) ^ 2 := by norm_num
    rw [h1, h2, Real.sqrt_sq (by norm_num : (0 : ℝ) ≤ 50), div_one]

/-- **C5** witness: the amended theorem applied to a one-sample buffer and
to a two-sample buffer with equal timestamps. -/
theorem C5_geschwindigkeit_abgeaendert_zeuge :
    (¬ geschwindigkeit_ist [⟨0, (0, 0), (0, 0, 0, 0)⟩] 7) ∧
    (¬ geschwindigkeit_ist
      [⟨3, (0, 0), (0, 0, 0, 0)⟩, ⟨3, (30, 40), (0, 0, 0, 0)⟩] 7) := by
  constructor
  · exact (C5_geschwindigkeit_abgeaendert [⟨0, (0, 0), (0, 0, 0, 0)⟩]
      ⟨0, (0, 0), (0, 0, 0, 0)⟩ ⟨0, (0, 0), (0, 0, 0, 0)⟩).1 (by decide) 7
  · exact ((C5_geschwindigkeit_abgeaendert
      [⟨3, (0, 0), (0, 0, 0, 0)⟩, ⟨3, (30, 40), (0, 0, 0, 0)⟩]
      ⟨3, (0, 0), (0, 0, 0, 0)⟩ ⟨3, (30, 40), (0, 0, 0, 0)⟩).2.1 rfl rfl).1
      (by norm_num) 7

/-! ## C10 — cumulative warnings counter -/

/-- **C10**, confirmed: for every processed detection (any class, positive
bbox width), the `warnungen_gesamt` increment is `1` exactly when the
class is not `traffic light`, its distance is known, and
`erstelle_deutsche_warnung` produces a non-empty message — and then the
message list is exactly that message; a red traffic light appends its
danger message with increment `0`; in every case the increment is `0` or
`1`. -/
theorem C10_warnzaehler_bestaetigt (klasse positionswert : String) (breite : ℚ)
    (rot schnell : Bool) (gefahr_abstand : ℚ) (hb : 0 < breite) :
    (verarbeite_detektion "traffic light" positionswert breite true schnell gefahr_abstand =
      .ok (["🚦 ROTE AMPEL - BITTE ANHALTEN!"], true, 0)) ∧
    (∀ (M : List String) (R : Bool) (Z : ℕ),
      verarbeite_detektion klasse positionswert breite rot schnell gefahr_abstand =
        .ok (M, R, Z) →
      ((Z = 1 ↔ klasse ≠ "traffic light" ∧
          ∃ e : ℚ, berechne_entfernung breite klasse = .ok (some e) ∧
            erstelle_deutsche_warnung klasse positionswert e schnell gefahr_abstand ≠ "") ∧
       (Z = 0 ∨ Z = 1) ∧
       (Z = 1 → M ≠ []))) := by
  have hb0 : breite ≠ 0 := ne_of_gt hb
  constructor
  · simp [verarbeite_detektion, berechne_entfernung, REALE_OBJEKT_GROESSEN, hb0]
  · intro M R Z hV
    cases hR : REALE_OBJEKT_GROESSEN klasse with
    | none =>
        simp only [verarbeite_detektion, berechne_entfernung, hR] at hV
        by_cases hTL : klasse = "traffic light"
        · rw [hTL] at hR
          exact absurd hR (by simp [REALE_OBJEKT_GROESSEN])
        · simp only [if_neg hTL] at hV
          obtain ⟨rfl, rfl, rfl⟩ : M = [] ∧ R = false ∧ Z = 0 := by
            simpa using hV.symm
          refine ⟨?_, Or.inl rfl, by simp⟩
          simp only [berechne_entfernung, hR]
          constructor
          · intro h; exact absurd h (by omega)
          · rintro ⟨-, e, he, -⟩
            exact absurd he (by simp [berechne_entfernung, hR])
    | some gr =>
        simp only [verarbeite_detektion, berechne_entfernung, hR, if_neg hb0] at hV
        by_cases hTL : klasse = "traffic light"
        · simp only [if_pos hTL] at hV
          cases rot with
          | false =>
              simp only [if_neg (by simp : ¬ (false = true))] at hV
              obtain ⟨rfl, rfl, rfl⟩ : M = [] ∧ R = false ∧ Z = 0 := by
                simpa using hV.symm
              refine ⟨?_, Or.inl rfl, by simp⟩
              constructor
              · intro h; exact absurd h (by omega)
              · rintro ⟨hne, -⟩
                exact absurd hTL hne
          | true =>
              simp only [if_pos rfl] at hV
              obtain ⟨rfl, rfl, rfl⟩ :
                  M = ["🚦 ROTE AMPEL - BITTE ANHALTEN!"] ∧ R = true ∧ Z = 0 := by
                simpa using hV.symm
              refine ⟨?_, Or.inl rfl, by simp⟩
              constructor
              · intro h; exact absurd h (by omega)
              · rintro ⟨hne, -⟩
                exact absurd hTL hne
        · simp only [if_neg hTL] at hV
          by_cases hW : erstelle_deutsche_warnung klasse positionswert
              (runde2 (gr * 600 / breite)) schnell gefahr_abstand = ""
          · rw [if_neg (by simpa using hW)] at hV
            obtain ⟨rfl, rfl, rfl⟩ : M = [] ∧ R = false ∧ Z = 0 := by
              simpa using hV.symm
            refine ⟨?_, Or.inl rfl, by simp⟩
            constructor
            · intro h; exact absurd h (by omega)
            · rintro ⟨-, e, he, hne⟩
              have he' : runde2 (gr * 600 / breite) = e := by
                simpa [berechne_entfernung, hR, hb0] using he
              rw [← he'] at hne
              exact absurd hW hne
          · rw [if_pos (by simpa using hW)] at hV
            obtain ⟨rfl, rfl, rfl⟩ :
                M = [erstelle_deutsche_warnung klasse positionswert
                  (runde2 (gr * 600 / breite)) schnell gefahr_abstand] ∧
                R = false ∧ Z = 1 := by
              simpa using hV.symm
            refine ⟨?_, Or.inr rfl, by simp⟩
            constructor
            · intro _
              exact ⟨hTL, runde2 (gr * 600 / breite),
                by simp [berechne_entfernung, hR, hb0], hW⟩
            · intro _; rfl

/-- **C10** witness: a red traffic light at bbox width 300 appends its stop
message with counter increment 0. -/
theorem C10_warnzaehler_bestaetigt_zeuge :
    verarbeite_detektion "traffic light" "Left" 300 true false (3/2) =
      .ok (["🚦 ROTE AMPEL - BITTE ANHALTEN!"], true, 0) :=
  (C10_warnzaehler_bestaetigt "car" "Left" 300 false false (3/2) (by norm_num)).1

/-! ## C1 — hazard evaluator priority -/

/-- **C1**, counterexample: a `traffic light` at bbox width 300 (estimated
distance 0.6 m, below the 1.5 m danger threshold) whose red heuristic does
not fire.  The claim's priority chain reaches rule 2 and emits a Danger
message, but the source applies the distance/speed rules only to
non-traffic-light classes and emits nothing for this detection. -/
theorem C1_gefahrenbewertung_gegenbeispiel :
    berechne_entfernung 300 "traffic light" = .ok (some (3/5)) ∧
    bewerte_gefahr_spec true false (some (3/5)) false (3/2) =
      some ⟨Schweregrad.Gefahr, false, false⟩ ∧
    verarbeite_detektion "traffic light" "Center" 300 false false (3/2) =
      .ok ([], false, 0) := by
  refine ⟨?_, ?_, ?_⟩
  · norm_num [berechne_entfernung, REALE_OBJEKT_GROESSEN, runde2, round_eq]
  · norm_num [bewerte_gefahr_spec]
  · norm_num [verarbeite_detektion, berechne_entfernung, REALE_OBJEKT_GROESSEN]

/-- **C1**, amended: for every processed detection (class kept by the
filter, positive bbox width) the decision is: if the class is
`traffic light`, a Danger stop message is emitted iff the red-light
heuristic fires, and the distance/speed rules are never applied to it
(even when the estimated distance is below the danger threshold); for
every other class the distance is always known and: below the danger
threshold a Danger message is emitted whose text uses the approaching-fast
phrasing exactly when the speed flag is set, else a speed-only Warning
hint is emitted when the flag is set, else nothing. -/
theorem C1_gefahrenbewertung_abgeaendert (klasse positionswert : String)
    (breite : ℚ) (rot schnell : Bool) (gefahr_abstand : ℚ)
    (hk : klasse ∈ WICHTIGE_OBJEKTE) (hb : 0 < breite) :
    ∃ e : ℚ, berechne_entfernung breite klasse = .ok (some e) ∧
      verarbeite_detektion klasse positionswert breite rot schnell gefahr_abstand =
        .ok (
          if klasse = "traffic light" then
            (if rot then (["🚦 ROTE AMPEL - BITTE ANHALTEN!"], true, 0)
             else ([], false, 0))
          else if e < gefahr_abstand then
            ([if schnell then
                "⚠️ DRINGEND: " ++ uebersetze_zu_deutsch klasse ++
                  " nähert sich schnell von " ++ uebersetze_zu_deutsch positionswert ++
                  "! Nur " ++ fmt1 e ++ " Meter entfernt!"
              else
                "⚠️ ACHTUNG: " ++ uebersetze_zu_deutsch klasse ++ " zu nah auf " ++
                  uebersetze_zu_deutsch positionswert ++ "! Abstand: " ++ fmt1 e ++
                  " Meter"],
             false, 1)
          else if schnell then
            (["⚠️ HINWEIS: Schneller " ++ uebersetze_zu_deutsch klasse ++ " von " ++
                uebersetze_zu_deutsch positionswert], false, 1)
          else ([], false, 0)) := by
  obtain ⟨gr, hR⟩ := wichtig_hat_groesse klasse hk
  have hb0 : breite ≠ 0 := ne_of_gt hb
  have hee : berechne_entfernung breite klasse = .ok (some (runde2 (gr * 600 / breite))) := by
    simp [berechne_entfernung, hR, hb0]
  refine ⟨runde2 (gr * 600 / breite), hee, ?_⟩
  by_cases hTL : klasse = "traffic light"
  · simp only [verarbeite_detektion, hee, if_pos hTL]
    cases rot <;> simp
  · simp only [verarbeite_detektion, hee, if_neg hTL]
    by_cases he : runde2 (gr * 600 / breite) < gefahr_abstand
    · cases schnell with
      | true =>
          have hne : erstelle_deutsche_warnung klasse positionswert
              (runde2 (gr * 600 / breite)) true gefahr_abstand ≠ "" := by
            simp only [erstelle_deutsche_warnung, if_pos he, if_pos rfl]
            repeat apply append_ne_leer
            decide
          rw [if_pos hne]
          simp only [erstelle_deutsche_warnung, if_pos he, if_pos rfl, ite_true]
      | false =>
          have hne : erstelle_deutsche_warnung klasse positionswert
              (runde2 (gr * 600 / breite)) false gefahr_abstand ≠ "" := by
            simp only [erstelle_deutsche_warnung, if_pos he]
            simp only [Bool.false_eq_true, if_false]
            repeat apply append_ne_leer
            decide
          rw [if_pos hne]
          simp only [erstelle_deutsche_warnung, if_pos he, Bool.false_eq_true,
            ite_false]
    · cases schnell with
      | true =>
          have hne : erstelle_deutsche_warnung klasse positionswert
              (runde2 (gr * 600 / breite)) true gefahr_abstand ≠ "" := by
            simp only [erstelle_deutsche_warnung, if_neg he, if_pos rfl]
            repeat apply append_ne_leer
            decide
          rw [if_pos hne]
          simp only [erstelle_deutsche_warnung, if_neg he, ite_true]
      | false =>
          have hleer : erstelle_deutsche_warnung klasse positionswert
              (runde2 (gr * 600 / breite)) false gefahr_abstand = "" := by
            simp only [erstelle_deutsche_warnung, if_neg he, Bool.false_eq_true,
              ite_false]
          rw [if_neg (by simpa using hleer)]
          simp only [if_neg he, Bool.false_eq_true, ite_false]

/-- **C1** witness: the amended theorem applied to a fast `"car"` at bbox
width 300 (distance 3.6 m, threshold 1.5 m): the speed-only Warning hint. -/
theorem C1_gefahrenbewertung_abgeaendert_zeuge :
    verarbeite_detektion "car" "Left" 300 false true (3/2) =
      .ok (["⚠️ HINWEIS: Schneller Auto von Links"], false, 1) := by
  obtain ⟨e, he, hv⟩ := C1_gefahrenbewertung_abgeaendert "car" "Left" 300 false true
    (3/2) (by decide) (by norm_num)
  have he' : e = 18/5 := by
    have : berechne_entfernung 300 "car" = .ok (some (18/5)) := by
      norm_num [berechne_entfernung, REALE_OBJEKT_GROESSEN, runde2, round_eq]
    rw [this] at he
    simpa using he.symm
  rw [he'] at hv
  rw [hv]
  norm_num [uebersetze_zu_deutsch, DEUTSCHE_WOERTERBUCH]
  decide
